import Mathlib

/-!
Verification of the linkedin-mcp server (`src/server.py`) against its
natural-language specification.

The Python code is shallowly embedded: JSON values (as produced by
`json.loads`) become the inductive type `JSON`, Python dictionaries become
association lists with last-binding-wins lookup (matching dict construction
from JSON text and `{**c, ...}` merges), Python `None` is identified with
JSON `null` (exactly as in `json.loads`), and the places where the Python
code can raise an exception are modelled with `Except`.
-/

/-- A JSON value, as produced by Python's `json.loads`.  Numbers are
modelled as integers (the fields the server reads — dates, years — are
integers; no claim depends on float behaviour). -/
inductive JSON where
  | null
  | bool (b : Bool)
  | num (n : Int)
  | str (s : String)
  | arr (elems : List JSON)
  | obj (fields : List (String × JSON))

mutual
/-- Decidable equality on `JSON` (the deriving handler does not support
this nested inductive). -/
def JSON.decEq : (a b : JSON) → Decidable (a = b)
  | .null, .null => isTrue rfl
  | .bool x, .bool y =>
    if h : x = y then isTrue (by rw [h]) else isFalse (by simp [h])
  | .num x, .num y =>
    if h : x = y then isTrue (by rw [h]) else isFalse (by simp [h])
  | .str x, .str y =>
    if h : x = y then isTrue (by rw [h]) else isFalse (by simp [h])
  | .arr xs, .arr ys =>
    match JSON.decEqList xs ys with
    | isTrue h => isTrue (by rw [h])
    | isFalse h => isFalse (by simp [h])
  | .obj fs, .obj gs =>
    match JSON.decEqFields fs gs with
    | isTrue h => isTrue (by rw [h])
    | isFalse h => isFalse (by simp [h])
  | .null, .bool _ => isFalse nofun
  | .null, .num _ => isFalse nofun
  | .null, .str _ => isFalse nofun
  | .null, .arr _ => isFalse nofun
  | .null, .obj _ => isFalse nofun
  | .bool _, .null => isFalse nofun
  | .bool _, .num _ => isFalse nofun
  | .bool _, .str _ => isFalse nofun
  | .bool _, .arr _ => isFalse nofun
  | .bool _, .obj _ => isFalse nofun
  | .num _, .null => isFalse nofun
  | .num _, .bool _ => isFalse nofun
  | .num _, .str _ => isFalse nofun
  | .num _, .arr _ => isFalse nofun
  | .num _, .obj _ => isFalse nofun
  | .str _, .null => isFalse nofun
  | .str _, .bool _ => isFalse nofun
  | .str _, .num _ => isFalse nofun
  | .str _, .arr _ => isFalse nofun
  | .str _, .obj _ => isFalse nofun
  | .arr _, .null => isFalse nofun
  | .arr _, .bool _ => isFalse nofun
  | .arr _, .num _ => isFalse nofun
  | .arr _, .str _ => isFalse nofun
  | .arr _, .obj _ => isFalse nofun
  | .obj _, .null => isFalse nofun
  | .obj _, .bool _ => isFalse nofun
  | .obj _, .num _ => isFalse nofun
  | .obj _, .str _ => isFalse nofun
  | .obj _, .arr _ => isFalse nofun

/-- Decidable equality for lists of `JSON` values. -/
def JSON.decEqList : (xs ys : List JSON) → Decidable (xs = ys)
  | [], [] => isTrue rfl
  | [], _ :: _ => isFalse nofun
  | _ :: _, [] => isFalse nofun
  | x :: xs, y :: ys =>
    match JSON.decEq x y, JSON.decEqList xs ys with
    | isTrue h1, isTrue h2 => isTrue (by rw [h1, h2])
    | isFalse h1, _ => isFalse (by simp [h1])
    | _, isFalse h2 => isFalse (by simp [h2])

/-- Decidable equality for the field lists of `JSON` objects. -/
def JSON.decEqFields : (fs gs : List (String × JSON)) → Decidable (fs = gs)
  | [], [] => isTrue rfl
  | [], _ :: _ => isFalse nofun
  | _ :: _, [] => isFalse nofun
  | (k, v) :: fs, (l, w) :: gs =>
    match String.decEq k l, JSON.decEq v w, JSON.decEqFields fs gs with
    | isTrue h1, isTrue h2, isTrue h3 => isTrue (by rw [h1, h2, h3])
    | isFalse h1, _, _ => isFalse (by simp [h1])
    | _, isFalse h2, _ => isFalse (by simp [h2])
    | _, _, isFalse h3 => isFalse (by simp [h3])
end

instance : DecidableEq JSON := JSON.decEq

/-- Dictionary lookup on an association list, last binding wins — the
semantics of a Python dict built from JSON text (duplicate keys keep the
last) and of `{**c, "name": ..., "value": ...}` merges modelled by
appending the overriding bindings. `none` is a missing key. -/
def dget : List (String × JSON) → String → Option JSON
  | [], _ => none
  | (k, v) :: rest, key =>
    match dget rest key with
    | some w => some w
    | none => if k = key then some v else none

/-- Python truthiness of a JSON value (`if x:`). -/
def JSON.truthy : JSON → Bool
  | .null => false
  | .bool b => b
  | .num n => n != 0
  | .str s => s != ""
  | .arr xs => !xs.isEmpty
  | .obj fs => !fs.isEmpty

/-- Python `x or y` on JSON values: `x` if truthy, else `y`. -/
def pyOr (a b : JSON) : JSON := if a.truthy then a else b

/-- Python `x or None` (used to coerce falsy field values to null). -/
def pyOrNone (a : JSON) : JSON := if a.truthy then a else .null

mutual
/-- Python `repr()` of a JSON-loaded value (`None`, `True`, decimal ints,
single-quoted strings, bracketed containers). -/
def pyRepr : JSON → String
  | .null => "None"
  | .bool true => "True"
  | .bool false => "False"
  | .num n => toString n
  | .str s => "\x27" ++ s ++ "\x27"
  | .arr xs => "[" ++ pyReprList xs ++ "]"
  | .obj fs => "\x7b" ++ pyReprFields fs ++ "\x7d"

/-- Comma-separated reprs of the elements of a Python list. -/
def pyReprList : List JSON → String
  | [] => ""
  | [x] => pyRepr x
  | x :: y :: rest => pyRepr x ++ ", " ++ pyReprList (y :: rest)

/-- Comma-separated `key: value` reprs of the items of a Python dict. -/
def pyReprFields : List (String × JSON) → String
  | [] => ""
  | [(k, v)] => "\x27" ++ k ++ "\x27: " ++ pyRepr v
  | (k, v) :: y :: rest => "\x27" ++ k ++ "\x27: " ++ pyRepr v ++ ", " ++ pyReprFields (y :: rest)
end

/-- Python `str()` of a JSON-loaded value: a string is returned as is,
anything else via its repr. -/
def pyStr : JSON → String
  | .str s => s
  | v => pyRepr v

/-- Python `s.startswith(pre)`. -/
def pyStartsWith (s pre : String) : Bool := pre.data.isPrefixOf s.data

/-- Python `s.endswith(suf)`. -/
def pyEndsWith (s suf : String) : Bool := suf.data.isSuffixOf s.data

/-- Python `s.upper()` (ASCII range; the names compared in the server are
ASCII). -/
def pyUpper (s : String) : String := String.mk (s.data.map Char.toUpper)

/-- Python `s.lower()` (ASCII range). -/
def pyLower (s : String) : String := String.mk (s.data.map Char.toLower)

/-- Python whitespace characters stripped by `str.strip()`. -/
def pyIsSpace (c : Char) : Bool :=
  c = ' ' || c = '\t' || c = '\n' || c = '\r' || c = '\x0b' || c = '\x0c'

/-- Python `s.strip()`. -/
def pyStrip (s : String) : String :=
  String.mk (((s.data.dropWhile pyIsSpace).reverse.dropWhile pyIsSpace).reverse)

/-- Python `s[1:-1]` for a string `s`: drop the first and last character. -/
def pySliceInner (s : String) : String := String.mk ((s.data.drop 1).dropLast)

/-- Python `sep.join(parts)`. -/
def pyJoin (sep : String) : List String → String
  | [] => ""
  | [x] => x
  | x :: y :: rest => x ++ sep ++ pyJoin sep (y :: rest)

/-- Python `needle in hay` on strings, over their character lists. -/
def containsSub : List Char → List Char → Bool
  | hay, needle =>
    if needle.isPrefixOf hay then true
    else
      match hay with
      | [] => false
      | _ :: t => containsSub t needle

/-- A materialized cookie: the field list of the normalized cookie dict
(`_normalize_cookies` output element). -/
abbrev Cookie := List (String × JSON)

/-- `src/server.py` `_normalize_cookies` loop body for a dict element:
skipped unless its (stringified) name is non-empty; the `JSESSIONID`
double-quote stripping applies to its string value. -/
def normalizeObjCookie (fields : List (String × JSON)) : List Cookie :=
  let name := pyStr ((dget fields "name").getD (.str ""))
  if name = "" then []
  else
    let value := (dget fields "value").getD (.str "")
    let value :=
      match value with
      | .str s =>
        if pyStartsWith s "\"" && pyEndsWith s "\"" && pyUpper name = "JSESSIONID"
        then JSON.str (pySliceInner s)
        else JSON.str s
      | v => v
    [fields ++ [("name", .str name), ("value", value)]]

/-- `src/server.py` `_normalize_cookies` loop body: non-dict elements are
dropped, dict elements normalized by `normalizeObjCookie`. -/
def normalizeOne (c : JSON) : List Cookie :=
  match c with
  | .obj fields => normalizeObjCookie fields
  | _ => []

/-- `src/server.py` `_normalize_cookies`: a non-list input yields no
cookies; each list element is normalized (or dropped) by `normalizeOne`. -/
def normalize_cookies (raw : JSON) : List Cookie :=
  match raw with
  | .arr xs => xs.flatMap normalizeOne
  | _ => []

/-- `src/server.py` `_serialize_cookie_header`: `name=value` pairs joined
with `"; "`, skipping cookies whose stripped name is empty. -/
def serialize_cookie_header (cookies : List Cookie) : String :=
  pyJoin "; " (cookies.filterMap fun c =>
    let name := pyStrip (pyStr ((dget c "name").getD (.str "")))
    if name = "" then none
    else some (name ++ "=" ++ pyStrip (pyStr ((dget c "value").getD (.str "")))))

example : normalize_cookies (.arr [.obj [("name", .str "JSESSIONID"), ("value", .str "\"abc\"")], .num 3]) =
    [[("name", .str "JSESSIONID"), ("value", .str "\"abc\""), ("name", .str "JSESSIONID"), ("value", .str "abc")]] := by
  decide

/-- A character matched by `[a-zA-Z-]` in the `lang` regex. -/
def isLangChar (c : Char) : Bool := c.isAlpha || c = '-'

/-- The maximal run of `[a-zA-Z-]` characters at the head of the list
(the greedy capture group of the regex). -/
def takeLangRun : List Char → List Char
  | [] => []
  | c :: rest => if isLangChar c then c :: takeLangRun rest else []

/-- Python `re.search(r"lang=([a-zA-Z-]+)", v)`: the capture of the
leftmost match — at each position, the literal `lang=` followed by at
least one `[a-zA-Z-]` character, captured greedily. -/
def searchLang : List Char → Option String
  | [] => none
  | l@(_ :: rest) =>
    if ['l', 'a', 'n', 'g', '='].isPrefixOf l then
      let run := takeLangRun (l.drop 5)
      if run.isEmpty then searchLang rest else some (String.mk run)
    else searchLang rest

/-- Python `code.replace("-", "_")` (the replacement performed on the
captured lang code). -/
def pyReplaceDash (s : String) : String :=
  String.mk (s.data.map fun c => if c = '-' then '_' else c)

/-- The loop of `src/server.py` `_extract_lang_headers`: scan the cookies;
on a cookie whose `name` field equals the string `"lang"`, search its
stringified value for the `lang=<code>` pattern; `break` (stop) at the
first cookie where the pattern matched. -/
def extractLangLoop : List Cookie → Option String
  | [] => none
  | c :: rest =>
    if (dget c "name") = some (.str "lang") then
      match searchLang (pyStr ((dget c "value").getD (.str ""))).data with
      | some code => some code
      | none => extractLangLoop rest
    else extractLangLoop rest

/-- `src/server.py` `_extract_lang_headers`: returns
`(x-li-lang, accept-language)`; the first component comes from the lang
cookie scan (default `"en_US"`), the second is always the fixed
`"en-US,en;q=0.9"`. -/
def extract_lang_headers (cookies : List Cookie) : String × String :=
  (match extractLangLoop cookies with
   | some code => pyReplaceDash code
   | none => "en_US", "en-US,en;q=0.9")

/-- The default browser user agent baked into `src/server.py`
(`os.getenv("LI_UA", ...)` fallback). -/
def defaultUA : String :=
  "Mozilla/5.0 (Windows NT 10.0; Win64; x64) AppleWebKit/537.36 (KHTML, like Gecko) Chrome/126.0.0.0 Safari/537.36"

/-- The fixed `x-li-track` header value of `src/server.py`. -/
def trackHeaderValue : String :=
  "\x7b\"clientVersion\":\"1.11.*\",\"osName\":\"web\",\"osVersion\":\"unknown\",\"deviceFormFactor\":\"DESKTOP\",\"mpName\":\"voyager-web\"\x7d"

/-- `src/server.py` `_linkedin_headers`: the outbound header map, as the
ordered key/value list the Python dict literal builds; `uaEnv` models the
optional `LI_UA` environment variable.  The `csrf-token` entry is appended
iff the stringified value of the first cookie whose uppercased name is
`JSESSIONID` is non-empty. -/
def linkedin_headers (cookies : List Cookie) (referer : String) (uaEnv : Option String) :
    List (String × String) :=
  let cookieHeader := serialize_cookie_header cookies
  let js := cookies.find? fun c => pyUpper (pyStr ((dget c "name").getD (.str ""))) = "JSESSIONID"
  let jsValue := pyStr ((match js with
    | some c => dget c "value"
    | none => none).getD (.str ""))
  let langs := extract_lang_headers cookies
  let base := [("user-agent", uaEnv.getD defaultUA),
    ("accept", "application/vnd.linkedin.normalized+json+2.1"),
    ("x-restli-protocol-version", "2.0.0"),
    ("referer", referer),
    ("cookie", cookieHeader),
    ("accept-language", langs.2),
    ("x-li-lang", langs.1),
    ("x-li-track", trackHeaderValue)]
  if jsValue = "" then base
  else base ++ [("csrf-token", if pyStartsWith jsValue "ajax:" then jsValue else "ajax:" ++ jsValue)]

/-- Lookup in a header map (dict with unique literal keys): first match. -/
def headerGet (hs : List (String × String)) (k : String) : Option String :=
  (hs.find? fun p => p.1 = k).map (·.2)

/-- The parsed value `_get_session_from_header` commits to: the base64
parse attempt if it yielded a truthy value, else the raw-JSON parse
attempt if truthy, else nothing (the `if not parsed:` retry chain of
`src/server.py`).  `pb` is the result of base64-decoding the token and
parsing it as JSON (`none` when either step failed); `pr` is the result
of parsing the raw token as JSON. -/
def chooseParsed (pb pr : Option JSON) : Option JSON :=
  match pb with
  | some v => if v.truthy then some v else (match pr with
    | some w => if w.truthy then some w else none
    | none => none)
  | none => match pr with
    | some w => if w.truthy then some w else none
    | none => none

/-- `src/server.py` `_get_session_from_header` cookie extraction: a dict
with a `"cookies"` key contributes that key's value, anything else is
used as the cookie list itself. -/
def cookiesRawOf (parsed : JSON) : JSON :=
  match parsed with
  | .obj fields =>
    match dget fields "cookies" with
    | some w => w
    | none => .obj fields
  | v => v

/-- `src/server.py` `_get_session_from_header` from the two JSON parse
attempts onwards: fail when no truthy parse exists, normalize the
extracted cookie list, and fail when it normalizes to no cookies. -/
def get_session_from_parsed (pb pr : Option JSON) : Except String (List Cookie) :=
  match chooseParsed pb pr with
  | none => .error "linkedin_session must be base64(JSON) or JSON"
  | some parsed =>
    let cookies := normalize_cookies (cookiesRawOf parsed)
    if cookies.isEmpty then .error "No cookies provided in linkedin_session"
    else .ok cookies

/-- Python `re.sub(r"^/*in/*", "", s)` of `src/server.py`
`_manual_get_profile_raw`: the pattern can only match right after the
maximal run of leading slashes, where a literal `in` must follow; the
slashes after `in` are consumed greedily.  No match leaves the string
unchanged. -/
def stripLeadingIn (s : String) : String :=
  match (s.data.dropWhile (· = '/')) with
  | 'i' :: 'n' :: tail => String.mk (tail.dropWhile (· = '/'))
  | _ => s

/-- The UTF-8 encoding of one code point, as byte values. -/
def utf8Bytes (c : Char) : List Nat :=
  let n := c.toNat
  if n < 0x80 then [n]
  else if n < 0x800 then [0xC0 + n / 0x40, 0x80 + n % 0x40]
  else if n < 0x10000 then [0xE0 + n / 0x1000, 0x80 + (n / 0x40) % 0x40, 0x80 + n % 0x40]
  else [0xF0 + n / 0x40000, 0x80 + (n / 0x1000) % 0x40, 0x80 + (n / 0x40) % 0x40, 0x80 + n % 0x40]

/-- A byte Python `urllib.parse.quote(..., safe='')` leaves unescaped:
ASCII letters, digits, and `_.-~`. -/
def quoteSafeByte (b : Nat) : Bool :=
  (65 ≤ b && b ≤ 90) || (97 ≤ b && b ≤ 122) || (48 ≤ b && b ≤ 57) ||
    b = 95 || b = 46 || b = 45 || b = 126

/-- Uppercase hex digit for a value below 16. -/
def hexDigit (n : Nat) : Char :=
  if n < 10 then Char.ofNat (48 + n) else Char.ofNat (55 + n)

/-- Percent-escape of one byte. -/
def quoteByte (b : Nat) : String :=
  if quoteSafeByte b then String.singleton (Char.ofNat b)
  else String.mk ['%', hexDigit (b / 16), hexDigit (b % 16)]

/-- Python `urllib.parse.quote(pid, safe='')` over the UTF-8 bytes. -/
def urlQuote (s : String) : String :=
  pyJoin "" ((s.data.flatMap utf8Bytes).map quoteByte)

/-- The request path built by `src/server.py` `_manual_get_profile_raw`
from the `publicIdentifier` argument. -/
def manual_get_profile_path (publicIdentifier : String) : String :=
  "/voyager/api/identity/profiles/" ++ urlQuote (stripLeadingIn publicIdentifier) ++ "/profileView"

example : manual_get_profile_path "indira" = "/voyager/api/identity/profiles/dira/profileView" := by decide
example : extract_lang_headers [[("name", .str "lang"), ("value", .str "v=2&lang=de-DE")]] =
    ("de_DE", "en-US,en;q=0.9") := by decide

/-- Is this JSON value an object (Python `isinstance(x, dict)`)? -/
def JSON.isObj : JSON → Bool
  | .obj _ => true
  | _ => false

/-- Is this JSON value a string (Python `isinstance(x, str)`)? -/
def isStrVal : JSON → Bool
  | .str _ => true
  | _ => false

/-- Python falsiness of an optional value (`not x` where `x` may be the
Python `None` produced by a failed lookup, modelled with `Option`). -/
def pyFalsyOpt (o : Option JSON) : Bool :=
  match o with
  | none => true
  | some v => !v.truthy

/-- `src/server.py` `_parse_voyager_profile`: the `$type` tag of a
fragment, `"unknown"` for non-dict fragments and missing tags. -/
def typeTag (item : JSON) : String :=
  match item with
  | .obj fs => pyStr ((dget fs "$type").getD (.str "unknown"))
  | _ => "unknown"

/-- `src/server.py` `_parse_voyager_profile` local `is_type`:
case-insensitive substring match of the needle in the type tag. -/
def is_type (s needle : String) : Bool :=
  containsSub (pyLower s).data (pyLower needle).data

/-- One step of the `by_type` construction: Python
`by_type.setdefault(t, []).append(item)` on an insertion-ordered dict. -/
def byTypeInsert (m : List (String × List JSON)) (t : String) (i : JSON) :
    List (String × List JSON) :=
  match m with
  | [] => [(t, [i])]
  | (k, xs) :: rest =>
    if k = t then (k, xs ++ [i]) :: rest else (k, xs) :: byTypeInsert rest t i

/-- `src/server.py` `_parse_voyager_profile` `by_type`: grouping of the
`included` fragments by type tag, in an insertion-ordered dict. -/
def byType (included : List JSON) : List (String × List JSON) :=
  included.foldl (fun m item => byTypeInsert m (typeTag item) item) []

/-- The flattening `[i for t, arr in by_type.items() for i in arr if pred t]`
used by the projector's typed scans and collections. -/
def byTypeSelect (included : List JSON) (pred : String → Bool) : List JSON :=
  (byType included).flatMap fun p => if pred p.1 then p.2 else []

/-- `src/server.py` `_parse_voyager_profile` local `find_by_entity_urn`:
`None` for a falsy reference, else the first fragment whose `entityUrn`
field equals it. -/
def find_by_entity_urn (included : List JSON) (urn : JSON) : Option JSON :=
  if urn.truthy then
    included.find? fun i =>
      match i with
      | .obj fs => ((dget fs "entityUrn").getD .null) = urn
      | _ => false
  else none

/-- The `included` list of the raw response: empty unless the top level is
a dict whose `included` field is a list. -/
def includedOf (raw : JSON) : List JSON :=
  match raw with
  | .obj fs =>
    match (dget fs "included").getD .null with
    | .arr xs => xs
    | _ => []
  | _ => []

/-- The `data["*profile"]` reference of the raw response (`None` when the
top level or `data` is not a dict). -/
def profileUrnOf (raw : JSON) : JSON :=
  match raw with
  | .obj fs =>
    match pyOr ((dget fs "data").getD .null) (.obj []) with
    | .obj dfs => (dget dfs "*profile").getD .null
    | _ => .null
  | _ => .null

/-- The `profile` variable of `_parse_voyager_profile` after its fallback:
the fragment found by `entityUrn`, or — when that is falsy — the first
fragment of the `identity.profile.profile` typed scan. -/
def profileVal (raw : JSON) : Option JSON :=
  let included := includedOf raw
  let fromUrn := find_by_entity_urn included (profileUrnOf raw)
  if pyFalsyOpt fromUrn then
    (byTypeSelect included (is_type · "identity.profile.profile")).head?
  else fromUrn

/-- The `mini` variable of `_parse_voyager_profile`: resolved from the
profile's `*miniProfile` reference, falling back to the
`identity.shared.miniprofile` typed scan when falsy. -/
def miniVal (raw : JSON) : Option JSON :=
  let included := includedOf raw
  let miniUrn : JSON :=
    match profileVal raw with
    | some (.obj fs) => (dget fs "*miniProfile").getD .null
    | _ => .null
  let fromUrn := find_by_entity_urn included miniUrn
  if pyFalsyOpt fromUrn then
    (byTypeSelect included (is_type · "identity.shared.miniprofile")).head?
  else fromUrn

/-- The `any_with_name` variable of `_parse_voyager_profile`: computed
(as the first fragment with string `firstName` and `lastName` fields)
only when both `profile` and `mini` are falsy. -/
def anyWithNameVal (raw : JSON) : Option JSON :=
  if pyFalsyOpt (profileVal raw) && pyFalsyOpt (miniVal raw) then
    (includedOf raw).find? fun i =>
      match i with
      | .obj fs =>
        isStrVal ((dget fs "firstName").getD .null) && isStrVal ((dget fs "lastName").getD .null)
      | _ => false
  else none

/-- The `any_with_headline`-style scans of `_parse_voyager_profile`: the
first fragment whose given field is a string. -/
def anyWithField (raw : JSON) (field : String) : Option JSON :=
  (includedOf raw).find? fun i =>
    match i with
    | .obj fs => isStrVal ((dget fs field).getD .null)
    | _ => false

/-- The `any_with_location` scan: first fragment with a string
`geoLocationName` or `locationName` field. -/
def anyWithLocationVal (raw : JSON) : Option JSON :=
  (includedOf raw).find? fun i =>
    match i with
    | .obj fs =>
      isStrVal ((dget fs "geoLocationName").getD .null) ||
        isStrVal ((dget fs "locationName").getD .null)
    | _ => false

/-- Python `(x or {}).get(k) if isinstance(x, dict) else None` on an
optional value. -/
def getFieldFromOptObj (o : Option JSON) (k : String) : JSON :=
  match o with
  | some (.obj fs) => (dget fs k).getD .null
  | _ => .null

/-- The `first` variable of `_parse_voyager_profile`: profile field, then
mini field when falsy, then the (gated) `any_with_name` fragment field. -/
def firstNameVal (raw : JSON) : JSON :=
  let a := getFieldFromOptObj (profileVal raw) "firstName"
  let b := if a.truthy then a else getFieldFromOptObj (miniVal raw) "firstName"
  if b.truthy then b
  else
    match anyWithNameVal raw with
    | some (.obj fs) => (dget fs "firstName").getD .null
    | _ => b

/-- The `last` variable of `_parse_voyager_profile` (same chain as
`first`, on `lastName`). -/
def lastNameVal (raw : JSON) : JSON :=
  let a := getFieldFromOptObj (profileVal raw) "lastName"
  let b := if a.truthy then a else getFieldFromOptObj (miniVal raw) "lastName"
  if b.truthy then b
  else
    match anyWithNameVal raw with
    | some (.obj fs) => (dget fs "lastName").getD .null
    | _ => b

/-- The `full_name` of the projected document:
Python `f"{first or ''} {last or ''}".strip()`. -/
def fullNameVal (raw : JSON) : String :=
  pyStrip ((if (firstNameVal raw).truthy then pyStr (firstNameVal raw) else "") ++ " " ++
    (if (lastNameVal raw).truthy then pyStr (lastNameVal raw) else ""))

/-- The `headline` chain of `_parse_voyager_profile`: profile field; when
that is `None`, the first fragment with a string `headline`. -/
def headlineVal (raw : JSON) : JSON :=
  let h := getFieldFromOptObj (profileVal raw) "headline"
  if h = .null then
    match anyWithField raw "headline" with
    | some (.obj fs) => (dget fs "headline").getD .null
    | _ => h
  else h

/-- The `occupation` chain of `_parse_voyager_profile`: mini field; when
that is `None`, the first fragment with a string `occupation`. -/
def occupationVal (raw : JSON) : JSON :=
  let o := getFieldFromOptObj (miniVal raw) "occupation"
  if o = .null then
    match anyWithField raw "occupation" with
    | some (.obj fs) => (dget fs "occupation").getD .null
    | _ => o
  else o

/-- The `location` chain of `_parse_voyager_profile`: profile
`geoLocationName or locationName`; when that is `None`, the same alias
pair on the first fragment exposing either as a string. -/
def locationVal (raw : JSON) : JSON :=
  let l : JSON :=
    match profileVal raw with
    | some (.obj fs) =>
      pyOr ((dget fs "geoLocationName").getD .null) ((dget fs "locationName").getD .null)
    | _ => .null
  if l = .null then
    match anyWithLocationVal raw with
    | some (.obj fs) =>
      pyOr ((dget fs "geoLocationName").getD .null) ((dget fs "locationName").getD .null)
    | _ => l
  else l

/-- The `industry` chain of `_parse_voyager_profile`: profile
`industryName`; when that is `None`, the first fragment with a string
`industryName`. -/
def industryVal (raw : JSON) : JSON :=
  let i : JSON :=
    match profileVal raw with
    | some (.obj fs) => (dget fs "industryName").getD .null
    | _ => .null
  if i = .null then
    match anyWithField raw "industryName" with
    | some (.obj fs) => (dget fs "industryName").getD .null
    | _ => i
  else i

/-- The `positions` collection of `_parse_voyager_profile`: every
fragment grouped under a type tag matching `position` or `positiongroup`. -/
def positionsOf (raw : JSON) : List JSON :=
  byTypeSelect (includedOf raw) (fun t => is_type t "position" || is_type t "positiongroup")

/-- The `educations` collection of `_parse_voyager_profile`. -/
def educationsOf (raw : JSON) : List JSON :=
  byTypeSelect (includedOf raw) (is_type · "education")

/-- The `skills_arr` collection of `_parse_voyager_profile`. -/
def skillsFragsOf (raw : JSON) : List JSON :=
  byTypeSelect (includedOf raw) (is_type · "skill")

/-- `src/server.py` `_parse_voyager_profile` local `normalize_date`:
`Y[-M[-D]]` from the truthy components, `None` when none are present or
the input is not a dict. -/
def normalize_date (o : JSON) : JSON :=
  match o with
  | .obj fs =>
    let parts :=
      ([(dget fs "year").getD .null, (dget fs "month").getD .null,
        (dget fs "day").getD .null].filter JSON.truthy).map pyStr
    if parts.isEmpty then .null else .str (pyJoin "-" parts)
  | _ => .null

/-- The `time_range` resolution shared by the position and education
loops: `p.get("timePeriod") or p.get("dateRange") or {}`. -/
def timeRangeOf (fs : List (String × JSON)) : JSON :=
  pyOr ((dget fs "timePeriod").getD .null) (pyOr ((dget fs "dateRange").getD .null) (.obj []))

/-- One iteration of the experience loop of `_parse_voyager_profile`:
non-dict fragments are skipped (`none`); a truthy non-dict `time_range`
makes the Python attribute access `time_range.get(...)` raise, modelled
as an `Except.error`. -/
def mkExperienceItem (p : JSON) : Except String (Option JSON) :=
  match p with
  | .obj fs =>
    let title := pyOr ((dget fs "title").getD .null) (pyOr ((dget fs "name").getD .null)
      (pyOr ((dget fs "positionName").getD .null) ((dget fs "localizedTitle").getD .null)))
    let company0 : JSON :=
      match (dget fs "company").getD .null with
      | .obj cfs => (dget cfs "name").getD .null
      | _ => .null
    let company := pyOr company0 (pyOr ((dget fs "companyName").getD .null)
      ((dget fs "entityLocalizedName").getD .null))
    let description := (dget fs "description").getD .null
    match timeRangeOf fs with
    | .obj tfs =>
      let start := normalize_date (pyOr ((dget tfs "startDate").getD .null)
        (pyOr ((dget tfs "start").getD .null) (.obj [])))
      let stop := normalize_date (pyOr ((dget tfs "endDate").getD .null)
        (pyOr ((dget tfs "end").getD .null) (.obj [])))
      .ok (some (.obj [("title", pyOrNone title), ("company", pyOrNone company),
        ("description", pyOrNone description), ("start", start), ("end", stop)]))
    | _ => .error "AttributeError: time_range has no attribute get"
  | _ => .ok none

/-- One iteration of the education loop of `_parse_voyager_profile`
(same raising behaviour on `time_range` as the experience loop). -/
def mkEducationItem (e : JSON) : Except String (Option JSON) :=
  match e with
  | .obj fs =>
    let school0 : JSON :=
      match (dget fs "school").getD .null with
      | .obj sfs => (dget sfs "name").getD .null
      | _ => .null
    let school := pyOr school0 (pyOr ((dget fs "schoolName").getD .null)
      ((dget fs "entityLocalizedName").getD .null))
    let degree := pyOr ((dget fs "degreeName").getD .null) (pyOr ((dget fs "degree").getD .null)
      ((dget fs "fieldOfStudy").getD .null))
    match timeRangeOf fs with
    | .obj tfs =>
      let start := normalize_date (pyOr ((dget tfs "startDate").getD .null)
        (pyOr ((dget tfs "start").getD .null) (.obj [])))
      let stop := normalize_date (pyOr ((dget tfs "endDate").getD .null)
        (pyOr ((dget tfs "end").getD .null) (.obj [])))
      .ok (some (.obj [("school", pyOrNone school), ("degree", pyOrNone degree),
        ("start", start), ("end", stop)]))
    | _ => .error "AttributeError: time_range has no attribute get"
  | _ => .ok none

/-- The entry-building loops of `_parse_voyager_profile`: left to right,
skipping `none` items, aborting with the first raised error. -/
def buildEntries (f : JSON → Except String (Option JSON)) : List JSON → Except String (List JSON)
  | [] => .ok []
  | p :: rest =>
    match f p, buildEntries f rest with
    | .error e, _ => .error e
    | .ok _, .error e => .error e
    | .ok o, .ok es =>
      .ok (match o with
        | some x => x :: es
        | none => es)

/-- One iteration of the skills loop of `_parse_voyager_profile`:
`name`, then nested `skill.name` when falsy, then `entityLocalizedName`;
entries with no truthy resolved name are dropped. -/
def mkSkillItem (s : JSON) : Option String :=
  match s with
  | .obj fs =>
    let n := (dget fs "name").getD .null
    let n1 :=
      if n.truthy then n
      else
        match (dget fs "skill").getD .null with
        | .obj sfs => (dget sfs "name").getD .null
        | _ => n
    let n2 := pyOr n1 ((dget fs "entityLocalizedName").getD .null)
    if n2.truthy then some (pyStr n2) else none
  | _ => none

/-- The `skills` list of the projected document. -/
def skillsOf (raw : JSON) : List String :=
  (skillsFragsOf raw).filterMap mkSkillItem

/-- The projected profile document of `src/server.py`
`_parse_voyager_profile` (the returned dict; scalar fields hold the
Python value, with falsy values coerced to `None` by the `or None`
in the return expression). -/
structure ProfileDoc where
  fullName : String
  headline : JSON
  occupation : JSON
  location : JSON
  industry : JSON
  experience : List JSON
  education : List JSON
  skills : List String
deriving DecidableEq

/-- Decidable equality for `Except` results. -/
instance {ε α : Type} [DecidableEq ε] [DecidableEq α] : DecidableEq (Except ε α)
  | .error e, .error f => if h : e = f then isTrue (by rw [h]) else isFalse (by simp [h])
  | .ok a, .ok b => if h : a = b then isTrue (by rw [h]) else isFalse (by simp [h])
  | .error _, .ok _ => isFalse nofun
  | .ok _, .error _ => isFalse nofun

/-- `src/server.py` `_parse_voyager_profile`: the whole projector, with
the raising sites of the Python code modelled as `Except.error`. -/
def parse_voyager_profile (raw : JSON) : Except String ProfileDoc :=
  match buildEntries mkExperienceItem (positionsOf raw),
    buildEntries mkEducationItem (educationsOf raw) with
  | .error e, _ => .error e
  | .ok _, .error e => .error e
  | .ok exp, .ok edu =>
    .ok { fullName := fullNameVal raw,
          headline := pyOrNone (headlineVal raw),
          occupation := pyOrNone (occupationVal raw),
          location := pyOrNone (locationVal raw),
          industry := pyOrNone (industryVal raw),
          experience := exp,
          education := edu,
          skills := skillsOf raw }

example : parse_voyager_profile (.str "notanobject") =
    .ok ⟨"", .null, .null, .null, .null, [], [], []⟩ := by decide

example : (parse_voyager_profile (.obj [("included", .arr [.obj [("$type", .str "Position"),
    ("timePeriod", .str "2020")]])])).isOk = false := by decide

example : (parse_voyager_profile (.obj [("included", .arr [
    .obj [("$type", .str "PositionA"), ("title", .str "T1")],
    .obj [("$type", .str "PositionB"), ("title", .str "T2")],
    .obj [("$type", .str "PositionA"), ("title", .str "T3")]])])).map
      (fun d => d.experience.map (fun e => match e with
        | .obj fs => (dget fs "title").getD .null
        | _ => .null)) = .ok [.str "T1", .str "T3", .str "T2"] := by decide

example : (parse_voyager_profile (.obj [("included", .arr [
    .obj [("$type", .str "com.linkedin.voyager.identity.profile.Profile"),
      ("occupation", .str "P"), ("headline", .str "HL")],
    .obj [("$type", .str "com.linkedin.voyager.identity.shared.MiniProfile"),
      ("occupation", .str "M")]])])).map (·.occupation) = .ok (.str "M") := by decide

example : (parse_voyager_profile (.obj [("included", .arr [
    .obj [("$type", .str "x"), ("firstName", .str "John"), ("lastName", .str "Doe")],
    .obj [("$type", .str "com.linkedin.voyager.identity.shared.MiniProfile"),
      ("headline", .str "mh")]])])).map (·.fullName) = .ok "" := by decide

example : headerGet (linkedin_headers [[("name", .str "JSESSIONID"), ("value", .str "")],
    [("name", .str "JSESSIONID"), ("value", .str "x")]] "r" none) "csrf-token" = none := by decide

example : ([[("name", JSON.str "JSESSIONID"), ("value", JSON.str "")],
    [("name", JSON.str "JSESSIONID"), ("value", JSON.str "x")]] : List Cookie).any
      (fun c => pyUpper (pyStr ((dget c "name").getD (.str ""))) = "JSESSIONID" &&
        pyStr ((dget c "value").getD (.str "")) != "") = true := by decide

example : headerGet (linkedin_headers [[("name", .str "jsessionid"), ("value", .str "\"abc123\"")]]
    "r" none) "csrf-token" = some "ajax:\"abc123\"" := by decide

example : headerGet (linkedin_headers (normalize_cookies (.arr [.obj [("name", .str "JSESSIONID"),
    ("value", .str "\"abc123\"")]])) "r" none) "csrf-token" = some "ajax:abc123" := by decide

example : extract_lang_headers [[("name", .str "LANG"), ("value", .str "lang=de-DE")]] =
    ("en_US", "en-US,en;q=0.9") := by decide

example : get_session_from_parsed (some (.obj [("cookies", .arr
    [.obj [("name", .str "JSESSIONID"), ("value", .str "\"abc123\"")], .num 5])])) none =
    .ok [[("name", .str "JSESSIONID"), ("value", .str "\"abc123\""),
      ("name", .str "JSESSIONID"), ("value", .str "abc123")]] := by decide

example : (get_session_from_parsed (some (.arr [.obj [("value", .str "v")], .num 1])) none).isOk
    = false := by decide

/-- Modelled from the spec: the tool façade's operation registry.  Only
`get_profile`'s registration is present in `src/server.py`; the spec's
other three operations (`search`, `fetch`, `search_linkedin_profiles`)
live in repository files not included under `src/` (the test harness
`src/test_mcp.py` invokes `search` and `fetch` against the server).  Each
operation is recorded with the argument names of its specified argument
shape (§6 of the spec). -/
structure ToolOp where
  name : String
  argNames : List String
deriving DecidableEq

/-- Modelled from the spec: the four callable operations bound by the
tool façade, with their argument shapes from §6. -/
def toolRegistry : List ToolOp :=
  [⟨"get_profile", ["publicIdentifier"]⟩,
   ⟨"search", ["query"]⟩,
   ⟨"fetch", ["id"]⟩,
   ⟨"search_linkedin_profiles", ["query", "country", "results", "page"]⟩]

/-- Registered-operation lookup by name. -/
def findTool (n : String) : Option ToolOp :=
  toolRegistry.find? fun op => op.name = n

/-- C2: the tool façade exposes four callable operations — for each of
the names `get_profile`, `search`, `fetch`, `search_linkedin_profiles`
a registered operation exists, invokable with its specified argument
shape (spec-modelled registry; only `get_profile` is registered in
`src/server.py` itself). -/
theorem c2_four_tools :
    findTool "get_profile" = some ⟨"get_profile", ["publicIdentifier"]⟩ ∧
    findTool "search" = some ⟨"search", ["query"]⟩ ∧
    findTool "fetch" = some ⟨"fetch", ["id"]⟩ ∧
    findTool "search_linkedin_profiles" =
      some ⟨"search_linkedin_profiles", ["query", "country", "results", "page"]⟩ ∧
    toolRegistry.length = 4 := by
  refine ⟨by decide, by decide, by decide, by decide, by decide⟩

/-- C10: `get_profile` builds the outbound request path from the
identifier with the regex prefix `^/*in/*` removed: `"indira"` is
silently truncated to `"dira"`; an identifier beginning with `"in"` loses
that prefix (and any slashes following it); an identifier beginning with
neither a slash nor `"in"` is used verbatim (URL-quoted). -/
theorem c10_profile_path_strips_in :
    manual_get_profile_path "indira" = "/voyager/api/identity/profiles/dira/profileView" ∧
    (∀ s : String, pyStartsWith s "in" = true →
      manual_get_profile_path s =
        "/voyager/api/identity/profiles/" ++
          urlQuote (String.mk ((s.data.drop 2).dropWhile (· = '/'))) ++ "/profileView") ∧
    (∀ s : String, pyStartsWith s "/" = false → pyStartsWith s "in" = false →
      manual_get_profile_path s =
        "/voyager/api/identity/profiles/" ++ urlQuote s ++ "/profileView") := by
  refine ⟨by decide, ?_, ?_⟩
  · intro s h
    obtain ⟨d⟩ := s
    cases d with
    | nil => simp [pyStartsWith, List.isPrefixOf] at h
    | cons c1 d1 =>
      cases d1 with
      | nil => simp [pyStartsWith, List.isPrefixOf] at h
      | cons c2 t =>
        simp [pyStartsWith, List.isPrefixOf] at h
        obtain ⟨h1, h2⟩ := h
        subst h1; subst h2
        rfl
  · intro s h1 h2
    obtain ⟨d⟩ := s
    cases d with
    | nil => rfl
    | cons c rest =>
      simp [pyStartsWith, List.isPrefixOf] at h1
      unfold manual_get_profile_path stripLeadingIn
      have hdw : (c :: rest).dropWhile (· = '/') = c :: rest := by
        rw [List.dropWhile_cons_of_neg]
        simpa using fun hh => h1 hh.symm
      rw [hdw]
      split
      next tail heq =>
        obtain ⟨hc, hrest⟩ := List.cons.inj heq
        subst hc
        rw [hrest] at h2
        simp [pyStartsWith, List.isPrefixOf] at h2
      next => rfl

/-- Witness for C10 at concrete identifiers: an identifier starting with
`in` is truncated, one starting with neither a slash nor `in` is used
verbatim. -/
theorem c10_profile_path_strips_in_witness :
    manual_get_profile_path "indira" =
      "/voyager/api/identity/profiles/" ++
        urlQuote (String.mk ((("indira" : String).data.drop 2).dropWhile (· = '/'))) ++
        "/profileView" ∧
    manual_get_profile_path "jane-doe" =
      "/voyager/api/identity/profiles/" ++ urlQuote "jane-doe" ++ "/profileView" :=
  ⟨c10_profile_path_strips_in.2.1 "indira" (by decide),
   c10_profile_path_strips_in.2.2 "jane-doe" (by decide) (by decide)⟩

/-- C8: cookie normalization strips the wrapping double quotes from a
string value exactly when the (stringified, non-empty) name uppercases to
`JSESSIONID` and the value both starts and ends with `"`; any other
cookie keeps its value verbatim.  The cookie is localized inside an
arbitrary surrounding list to express that this holds for every element. -/
theorem c8_normalize_quote_strip (pre post : List JSON) (fields : List (String × JSON))
    (n s : String)
    (hn : pyStr ((dget fields "name").getD (.str "")) = n)
    (hne : n ≠ "")
    (hv : dget fields "value" = some (.str s)) :
    normalize_cookies (.arr (pre ++ .obj fields :: post)) =
      normalize_cookies (.arr pre) ++
        [fields ++ [("name", .str n), ("value", .str
          (if pyStartsWith s "\"" && pyEndsWith s "\"" && pyUpper n = "JSESSIONID"
           then pySliceInner s else s))]] ++
        normalize_cookies (.arr post) := by
  show (pre ++ .obj fields :: post).flatMap normalizeOne = _
  rw [List.flatMap_append, List.flatMap_cons]
  have hone : normalizeOne (.obj fields) =
      [fields ++ [("name", .str n), ("value", .str
        (if pyStartsWith s "\"" && pyEndsWith s "\"" && pyUpper n = "JSESSIONID"
         then pySliceInner s else s))]] := by
    show normalizeObjCookie fields = _
    unfold normalizeObjCookie
    simp only [hn, hv, Option.getD_some]
    rw [if_neg hne]
    split <;> rfl
  rw [hone]
  simp [normalize_cookies, List.append_assoc]

/-- Witness for C8: the spec's own example — a `JSESSIONID` cookie with
value `"abc123"` (quotes included) has the quotes stripped. -/
theorem c8_normalize_quote_strip_witness :
    normalize_cookies (.arr [.obj [("name", .str "JSESSIONID"), ("value", .str "\"abc123\"")]]) =
      normalize_cookies (.arr []) ++
        [[("name", JSON.str "JSESSIONID"), ("value", JSON.str "\"abc123\"")] ++
          [("name", .str "JSESSIONID"), ("value", .str
            (if pyStartsWith "\"abc123\"" "\"" && pyEndsWith "\"abc123\"" "\"" &&
                pyUpper "JSESSIONID" = "JSESSIONID"
             then pySliceInner "\"abc123\"" else "\"abc123\""))]] ++
        normalize_cookies (.arr []) :=
  c8_normalize_quote_strip [] [] [("name", .str "JSESSIONID"), ("value", .str "\"abc123\"")]
    "JSESSIONID" "\"abc123\"" rfl (by decide) rfl

/-- Counterexample for C9: the `lang` cookie-name comparison in
`_extract_lang_headers` is case-sensitive, not case-insensitive as
claimed — a cookie named `LANG` with a matching `lang=de-DE` value is
ignored (locale stays the default), while the same cookie named `lang`
is honored. -/
theorem c9_lang_case_counterexample :
    extract_lang_headers [[("name", .str "LANG"), ("value", .str "lang=de-DE")]] =
      ("en_US", "en-US,en;q=0.9") ∧
    extract_lang_headers [[("name", .str "lang"), ("value", .str "lang=de-DE")]] =
      ("de_DE", "en-US,en;q=0.9") := by
  refine ⟨by decide, by decide⟩

/-- Claim-side description of the locale scan: the capture of the first
cookie named exactly `lang` whose value contains a `lang=<code>` match. -/
def langCodeSpec (cookies : List Cookie) : Option String :=
  (cookies.filterMap fun c =>
    if (dget c "name") = some (.str "lang")
    then searchLang (pyStr ((dget c "value").getD (.str ""))).data
    else none).head?

/-- The break-on-success scan loop equals the first-match description. -/
theorem extractLangLoop_eq (cs : List Cookie) : extractLangLoop cs = langCodeSpec cs := by
  induction cs with
  | nil => rfl
  | cons c rest ih =>
    unfold extractLangLoop langCodeSpec
    unfold langCodeSpec at ih
    by_cases h : (dget c "name") = some (JSON.str "lang")
    · rw [if_pos h]
      simp only [List.filterMap_cons, if_pos h]
      cases hs : searchLang (pyStr ((dget c "value").getD (.str ""))).data with
      | none => simpa using ih
      | some code => simp
    · rw [if_neg h]
      simp only [List.filterMap_cons, if_neg h]
      exact ih

/-- C9 (amended): `_extract_lang_headers` derives `x-li-lang` from the
first cookie named exactly `lang` (case-sensitively) whose value contains
a `lang=<code>` match, with `-` replaced by `_` and default `en_US`; the
accept-language component is the fixed `en-US,en;q=0.9` regardless of the
cookies. -/
theorem c9_lang_amended (cs : List Cookie) :
    extract_lang_headers cs =
      (((langCodeSpec cs).map pyReplaceDash).getD "en_US", "en-US,en;q=0.9") := by
  unfold extract_lang_headers
  rw [extractLangLoop_eq]
  cases langCodeSpec cs with
  | none => rfl
  | some code => rfl

/-- The first cookie whose uppercased, stringified name is `JSESSIONID`
(the cookie `_linkedin_headers` derives the CSRF token from). -/
def firstJsessionCookie (cookies : List Cookie) : Option Cookie :=
  cookies.find? fun c => pyUpper (pyStr ((dget c "name").getD (.str ""))) = "JSESSIONID"

/-- Counterexample for C7: a cookie set that contains a `JSESSIONID`
cookie with non-empty value, yet the derived headers carry no
`csrf-token` — `_linkedin_headers` only consults the *first*
`JSESSIONID`-named cookie, here one with an empty value. -/
theorem c7_csrf_counterexample :
    headerGet (linkedin_headers [[("name", .str "JSESSIONID"), ("value", .str "")],
        [("name", .str "JSESSIONID"), ("value", .str "x")]]
      "https://www.linkedin.com/" none) "csrf-token" = none ∧
    ([[("name", JSON.str "JSESSIONID"), ("value", JSON.str "")],
      [("name", JSON.str "JSESSIONID"), ("value", JSON.str "x")]] : List Cookie).any
        (fun c => pyUpper (pyStr ((dget c "name").getD (.str ""))) = "JSESSIONID" &&
          pyStr ((dget c "value").getD (.str "")) != "") = true := by
  refine ⟨by decide, by decide⟩

/-- C7 (amended): the `csrf-token` header is present iff the *first*
cookie whose uppercased name is `JSESSIONID` has a non-empty stringified
value; its value is that cookie's value prefixed with `ajax:` unless
already so prefixed. -/
theorem c7_csrf_amended (cookies : List Cookie) (referer : String) (uaEnv : Option String) :
    headerGet (linkedin_headers cookies referer uaEnv) "csrf-token" =
      match firstJsessionCookie cookies with
      | none => none
      | some c =>
        let v := pyStr ((dget c "value").getD (.str ""))
        if v = "" then none
        else some (if pyStartsWith v "ajax:" then v else "ajax:" ++ v) := by
  have hfc : (cookies.find? fun c =>
      pyUpper (pyStr ((dget c "name").getD (.str ""))) = "JSESSIONID") =
      firstJsessionCookie cookies := rfl
  unfold linkedin_headers headerGet
  rw [hfc]
  cases firstJsessionCookie cookies with
  | none => rfl
  | some c =>
    by_cases hv : pyStr ((dget c "value").getD (.str "")) = ""
    · simp only [hv, if_pos]
      rfl
    · simp only [if_neg hv]
      rfl

/-- Claim-side: a usable cookie element — an object whose (stringified)
name is non-empty (§4.1: elements that are not objects, or lack a name,
are dropped silently). -/
def usableCookie (c : JSON) : Bool :=
  match c with
  | .obj fs => pyStr ((dget fs "name").getD (.str "")) != ""
  | _ => false

/-- Claim-side: the parsed session value has an accepted shape — a bare
array, or an object whose `cookies` field is an array. -/
def sessionShapeOK (v : JSON) : Bool :=
  match v with
  | .arr _ => true
  | .obj fs =>
    match dget fs "cookies" with
    | some (.arr _) => true
    | _ => false
  | _ => false

/-- Claim-side: how many usable cookie elements the parsed value carries. -/
def usableCount (v : JSON) : Nat :=
  match cookiesRawOf v with
  | .arr xs => xs.countP usableCookie
  | _ => 0

/-- A cookie element normalizes to nothing exactly when it is unusable. -/
theorem normalizeOne_eq_nil_iff (c : JSON) : normalizeOne c = [] ↔ usableCookie c = false := by
  cases c <;> (simp only [normalizeOne, usableCookie]; try simp)
  case obj fields =>
    unfold normalizeObjCookie
    by_cases h : pyStr ((dget fields "name").getD (.str "")) = ""
    · simp [h]
    · simp only [h, if_false]
      simp [h]

/-- The parsed value yields zero usable cookies exactly when the
normalized cookie list is empty. -/
theorem usableCount_eq_zero_iff (v : JSON) :
    usableCount v = 0 ↔ (normalize_cookies (cookiesRawOf v)).isEmpty = true := by
  unfold usableCount
  cases hcr : cookiesRawOf v with
  | arr xs =>
    simp only [normalize_cookies, List.isEmpty_iff, List.flatMap_eq_nil_iff,
      List.countP_eq_zero]
    constructor
    · intro h x hx
      exact (normalizeOne_eq_nil_iff x).mpr (by simpa using h x hx)
    · intro h x hx
      simpa using (normalizeOne_eq_nil_iff x).mp (h x hx)
  | null => simp [normalize_cookies]
  | bool b => simp [normalize_cookies]
  | num n => simp [normalize_cookies]
  | str s => simp [normalize_cookies]
  | obj fs => simp [normalize_cookies]

/-- If normalization produced a cookie, the parsed value had an accepted
shape. -/
theorem sessionShapeOK_of_not_empty (v : JSON)
    (h : (normalize_cookies (cookiesRawOf v)).isEmpty = false) : sessionShapeOK v = true := by
  cases v with
  | arr xs => rfl
  | obj fs =>
    simp only [cookiesRawOf] at h
    simp only [sessionShapeOK]
    cases hdg : dget fs "cookies" with
    | none => rw [hdg] at h; simp [normalize_cookies] at h
    | some w =>
      rw [hdg] at h
      cases w with
      | arr ys => rfl
      | null => simp [normalize_cookies] at h
      | bool b => simp [normalize_cookies] at h
      | num n => simp [normalize_cookies] at h
      | str s => simp [normalize_cookies] at h
      | obj gs => simp [normalize_cookies] at h
  | null => simp [cookiesRawOf, normalize_cookies] at h
  | bool b => simp [cookiesRawOf, normalize_cookies] at h
  | num n => simp [cookiesRawOf, normalize_cookies] at h
  | str s => simp [cookiesRawOf, normalize_cookies] at h

/-- C6: the session-header decode fails exactly when no truthy parse is
available (the token is neither base64-of-JSON nor raw JSON, counting a
falsy parse result as a failed attempt), or the committed parsed value is
neither a bare array nor an object with a `cookies` array field, or zero
usable cookies remain after silently dropping non-object and nameless
elements; on success the normalized cookie list is returned. -/
theorem c6_decode_fail_iff (pb pr : Option JSON) :
    ((get_session_from_parsed pb pr).isOk = false ↔
      (match chooseParsed pb pr with
       | none => True
       | some v => sessionShapeOK v = false ∨ usableCount v = 0)) ∧
    (∀ v l, chooseParsed pb pr = some v → get_session_from_parsed pb pr = .ok l →
      l = normalize_cookies (cookiesRawOf v) ∧ l ≠ []) := by
  constructor
  · unfold get_session_from_parsed
    cases hc : chooseParsed pb pr with
    | none => simp only [iff_true]; rfl
    | some v =>
      show ((if (normalize_cookies (cookiesRawOf v)).isEmpty = true
          then (Except.error "No cookies provided in linkedin_session" : Except String (List Cookie))
          else Except.ok (normalize_cookies (cookiesRawOf v))).isOk = false) ↔
        (sessionShapeOK v = false ∨ usableCount v = 0)
      cases he : (normalize_cookies (cookiesRawOf v)).isEmpty with
      | true =>
        rw [if_pos rfl]
        constructor
        · intro _
          exact Or.inr ((usableCount_eq_zero_iff v).mpr he)
        · intro _
          rfl
      | false =>
        rw [if_neg (by simp)]
        constructor
        · intro h
          exact Bool.noConfusion h
        · intro h
          rcases h with h | h
          · rw [sessionShapeOK_of_not_empty v he] at h
            exact Bool.noConfusion h
          · rw [usableCount_eq_zero_iff] at h
            rw [h] at he
            exact Bool.noConfusion he
  · intro v l hv hl
    unfold get_session_from_parsed at hl
    rw [hv] at hl
    have hl2 : (if (normalize_cookies (cookiesRawOf v)).isEmpty = true
        then (Except.error "No cookies provided in linkedin_session" : Except String (List Cookie))
        else Except.ok (normalize_cookies (cookiesRawOf v))) = Except.ok l := hl
    cases he : (normalize_cookies (cookiesRawOf v)).isEmpty with
    | true =>
      rw [he, if_pos rfl] at hl2
      exact Except.noConfusion hl2
    | false =>
      rw [he, if_neg (by simp)] at hl2
      have hlv : normalize_cookies (cookiesRawOf v) = l := Except.ok.inj hl2
      refine ⟨hlv.symm, ?_⟩
      intro hnil
      rw [hlv, hnil] at he
      exact Bool.noConfusion he

/-- Witness for C6: a parsed object with a `cookies` array containing one
usable cookie and one junk element decodes successfully to the normalized
list (the junk element is dropped without failing the decode). -/
theorem c6_decode_fail_iff_witness :
    ([[("name", JSON.str "JSESSIONID"), ("value", JSON.str "\"abc123\""),
       ("name", JSON.str "JSESSIONID"), ("value", JSON.str "abc123")]] : List Cookie) =
      normalize_cookies (cookiesRawOf (.obj [("cookies", .arr
        [.obj [("name", .str "JSESSIONID"), ("value", .str "\"abc123\"")], .num 5])])) ∧
    ([[("name", JSON.str "JSESSIONID"), ("value", JSON.str "\"abc123\""),
       ("name", JSON.str "JSESSIONID"), ("value", JSON.str "abc123")]] : List Cookie) ≠ [] :=
  (c6_decode_fail_iff (some (.obj [("cookies", .arr
      [.obj [("name", .str "JSESSIONID"), ("value", .str "\"abc123\"")], .num 5])])) none).2
    (.obj [("cookies", .arr
      [.obj [("name", .str "JSESSIONID"), ("value", .str "\"abc123\"")], .num 5])])
    [[("name", JSON.str "JSESSIONID"), ("value", JSON.str "\"abc123\""),
      ("name", JSON.str "JSESSIONID"), ("value", JSON.str "abc123")]]
    rfl rfl

/-- Counterexample for C1: the projector never raises on a non-object
top-level input — a bare string projects to the empty document — while an
*object* input containing a position-typed fragment whose `timePeriod` is
a truthy non-dict value makes it raise (the unguarded `time_range.get`).
Both directions of the claimed "fails iff non-object top level" are
false. -/
theorem c1_counterexample :
    parse_voyager_profile (.str "notanobject") =
      .ok ⟨"", .null, .null, .null, .null, [], [], []⟩ ∧
    (parse_voyager_profile (.obj [("included", .arr [.obj [("$type", .str "Position"),
      ("timePeriod", .str "2020")]])])).isOk = false := by
  refine ⟨by decide, by decide⟩

/-- A fragment is safe for the date-handling of the entry loops: either
it is skipped (non-dict) or its resolved `time_range` is a dict. -/
def timeRangeObjOK (p : JSON) : Bool :=
  match p with
  | .obj fs => (timeRangeOf fs).isObj
  | _ => true

/-- An experience-loop iteration succeeds exactly on time-range-safe
fragments. -/
theorem mkExperienceItem_isOk (p : JSON) : (mkExperienceItem p).isOk = timeRangeObjOK p := by
  cases p with
  | obj fs =>
    simp only [mkExperienceItem, timeRangeObjOK]
    cases htr : timeRangeOf fs <;> rfl
  | null => rfl
  | bool b => rfl
  | num n => rfl
  | str s => rfl
  | arr xs => rfl

/-- An education-loop iteration succeeds exactly on time-range-safe
fragments. -/
theorem mkEducationItem_isOk (p : JSON) : (mkEducationItem p).isOk = timeRangeObjOK p := by
  cases p with
  | obj fs =>
    simp only [mkEducationItem, timeRangeObjOK]
    cases htr : timeRangeOf fs <;> rfl
  | null => rfl
  | bool b => rfl
  | num n => rfl
  | str s => rfl
  | arr xs => rfl

/-- An entry loop succeeds exactly when every iteration does. -/
theorem buildEntries_isOk (f : JSON → Except String (Option JSON)) (pred : JSON → Bool)
    (hf : ∀ p, (f p).isOk = pred p) (l : List JSON) :
    (buildEntries f l).isOk = l.all pred := by
  induction l with
  | nil => rfl
  | cons p rest ih =>
    simp only [buildEntries, List.all_cons]
    cases hfp : f p with
    | error e =>
      have hp : pred p = false := by rw [← hf p, hfp]; rfl
      simp [hp]
      rfl
    | ok o =>
      have hp : pred p = true := by rw [← hf p, hfp]; rfl
      cases hbr : buildEntries f rest with
      | error e =>
        rw [hbr] at ih
        simp [hp, ← ih]
      | ok es =>
        rw [hbr] at ih
        simp [hp, ← ih]
        cases o <;> rfl

/-- C1 (amended): the projector never raises `MalformedGraphResponse`; a
non-object top level degrades to the empty document, and projection
succeeds exactly when every position- and education-tagged fragment
resolves a dict (or falsy) `timePeriod`/`dateRange` — a truthy non-dict
time range is the projector's only failure mode. -/
theorem c1_projector_failure_characterization (raw : JSON) :
    (parse_voyager_profile raw).isOk =
      ((positionsOf raw).all timeRangeObjOK && (educationsOf raw).all timeRangeObjOK) := by
  unfold parse_voyager_profile
  rw [← buildEntries_isOk mkExperienceItem timeRangeObjOK mkExperienceItem_isOk (positionsOf raw),
      ← buildEntries_isOk mkEducationItem timeRangeObjOK mkEducationItem_isOk (educationsOf raw)]
  cases buildEntries mkExperienceItem (positionsOf raw) <;>
    cases buildEntries mkEducationItem (educationsOf raw) <;> rfl

/-- Claim-side tier: the primary profile fragment's field. -/
def profileTier (raw : JSON) (field : String) : JSON :=
  getFieldFromOptObj (profileVal raw) field

/-- Claim-side tier: the mini-profile fragment's field. -/
def miniTier (raw : JSON) (field : String) : JSON :=
  getFieldFromOptObj (miniVal raw) field

/-- Claim-side tier: the field of the first fragment in `included`
exposing it as a string. -/
def scanTier (raw : JSON) (field : String) : JSON :=
  match anyWithField raw field with
  | some (.obj fs) => (dget fs field).getD .null
  | _ => .null

/-- Claim-side tier: the aliased location field
(`geoLocationName or locationName`) of the primary profile fragment. -/
def profileLocTier (raw : JSON) : JSON :=
  match profileVal raw with
  | some (.obj fs) =>
    pyOr ((dget fs "geoLocationName").getD .null) ((dget fs "locationName").getD .null)
  | _ => .null

/-- Claim-side tier: the aliased location field of the first fragment
exposing either alias as a string. -/
def scanLocTier (raw : JSON) : JSON :=
  match anyWithLocationVal raw with
  | some (.obj fs) =>
    pyOr ((dget fs "geoLocationName").getD .null) ((dget fs "locationName").getD .null)
  | _ => .null

/-- Counterexample for C3: with both a primary profile fragment (carrying
`occupation: "P"`) and a mini-profile fragment (carrying
`occupation: "M"`) present, the projected occupation is `"M"` — the
profile tier is *not* consulted for occupation, so the four scalars do
not share one three-tier lookup. -/
theorem c3_scalar_tier_counterexample :
    (parse_voyager_profile (.obj [("included", .arr [
        .obj [("$type", .str "com.linkedin.voyager.identity.profile.Profile"),
          ("occupation", .str "P"), ("headline", .str "HL")],
        .obj [("$type", .str "com.linkedin.voyager.identity.shared.MiniProfile"),
          ("occupation", .str "M")]])])).map (·.occupation) = .ok (.str "M") ∧
    profileVal (.obj [("included", .arr [
        .obj [("$type", .str "com.linkedin.voyager.identity.profile.Profile"),
          ("occupation", .str "P"), ("headline", .str "HL")],
        .obj [("$type", .str "com.linkedin.voyager.identity.shared.MiniProfile"),
          ("occupation", .str "M")]])]) =
      some (.obj [("$type", .str "com.linkedin.voyager.identity.profile.Profile"),
        ("occupation", .str "P"), ("headline", .str "HL")]) ∧
    JSON.str "M" ≠ JSON.str "P" := by
  refine ⟨by decide, by decide, by decide⟩

/-- The scalar fields of a successfully projected document, in terms of
the embedded value chains. -/
theorem parse_ok_doc (raw : JSON) (doc : ProfileDoc)
    (h : parse_voyager_profile raw = .ok doc) :
    doc.fullName = fullNameVal raw ∧
    doc.headline = pyOrNone (headlineVal raw) ∧
    doc.occupation = pyOrNone (occupationVal raw) ∧
    doc.location = pyOrNone (locationVal raw) ∧
    doc.industry = pyOrNone (industryVal raw) ∧
    doc.skills = skillsOf raw := by
  unfold parse_voyager_profile at h
  cases hb1 : buildEntries mkExperienceItem (positionsOf raw) with
  | error e => rw [hb1] at h; exact Except.noConfusion h
  | ok exp =>
    cases hb2 : buildEntries mkEducationItem (educationsOf raw) with
    | error e => rw [hb1, hb2] at h; exact Except.noConfusion h
    | ok edu =>
      rw [hb1, hb2] at h
      have hdoc := Except.ok.inj h
      rw [← hdoc]
      exact ⟨rfl, rfl, rfl, rfl, rfl, rfl⟩

/-- The headline chain is the two-tier lookup profile-then-scan. -/
theorem headlineVal_tiers (raw : JSON) :
    headlineVal raw =
      (if profileTier raw "headline" = .null then scanTier raw "headline"
       else profileTier raw "headline") := by
  unfold headlineVal profileTier scanTier
  by_cases h : getFieldFromOptObj (profileVal raw) "headline" = .null
  · rw [if_pos h, if_pos h]
    cases anyWithField raw "headline" with
    | none => exact h
    | some v =>
      cases v with
      | obj fs => rfl
      | null => exact h
      | bool b => exact h
      | num n => exact h
      | str s => exact h
      | arr xs => exact h
  · rw [if_neg h, if_neg h]

/-- The occupation chain is the two-tier lookup mini-then-scan. -/
theorem occupationVal_tiers (raw : JSON) :
    occupationVal raw =
      (if miniTier raw "occupation" = .null then scanTier raw "occupation"
       else miniTier raw "occupation") := by
  unfold occupationVal miniTier scanTier
  by_cases h : getFieldFromOptObj (miniVal raw) "occupation" = .null
  · rw [if_pos h, if_pos h]
    cases anyWithField raw "occupation" with
    | none => exact h
    | some v =>
      cases v with
      | obj fs => rfl
      | null => exact h
      | bool b => exact h
      | num n => exact h
      | str s => exact h
      | arr xs => exact h
  · rw [if_neg h, if_neg h]

/-- The location chain is the two-tier lookup profile-then-scan over the
`geoLocationName`/`locationName` aliases. -/
theorem locationVal_tiers (raw : JSON) :
    locationVal raw =
      (if profileLocTier raw = .null then scanLocTier raw else profileLocTier raw) := by
  unfold locationVal profileLocTier scanLocTier
  by_cases h : (match profileVal raw with
    | some (.obj fs) =>
      pyOr ((dget fs "geoLocationName").getD .null) ((dget fs "locationName").getD .null)
    | _ => JSON.null) = .null
  · rw [if_pos h, if_pos h]
    cases anyWithLocationVal raw with
    | none => exact h
    | some v =>
      cases v with
      | obj fs => rfl
      | null => exact h
      | bool b => exact h
      | num n => exact h
      | str s => exact h
      | arr xs => exact h
  · rw [if_neg h, if_neg h]

/-- The industry chain is the two-tier lookup profile-then-scan on
`industryName`. -/
theorem industryVal_tiers (raw : JSON) :
    industryVal raw =
      (if profileTier raw "industryName" = .null then scanTier raw "industryName"
       else profileTier raw "industryName") := by
  unfold industryVal profileTier scanTier getFieldFromOptObj
  by_cases h : (match profileVal raw with
    | some (.obj fs) => (dget fs "industryName").getD .null
    | _ => JSON.null) = .null
  · rw [if_pos h, if_pos h]
    cases anyWithField raw "industryName" with
    | none => exact h
    | some v =>
      cases v with
      | obj fs => rfl
      | null => exact h
      | bool b => exact h
      | num n => exact h
      | str s => exact h
      | arr xs => exact h
  · rw [if_neg h, if_neg h]

/-- C3 (amended): the scalar attributes are *not* resolved by one shared
three-tier lookup; each uses a two-tier chain — headline, location and
industry read the primary profile fragment then fall back to the global
scan (never the mini-profile), while occupation reads the mini-profile
fragment then the global scan (never the primary profile).  Location
resolves the `geoLocationName`/`locationName` aliases inside each tier. -/
theorem c3_scalar_two_tier (raw : JSON) (doc : ProfileDoc)
    (h : parse_voyager_profile raw = .ok doc) :
    doc.headline = pyOrNone (if profileTier raw "headline" = .null
      then scanTier raw "headline" else profileTier raw "headline") ∧
    doc.occupation = pyOrNone (if miniTier raw "occupation" = .null
      then scanTier raw "occupation" else miniTier raw "occupation") ∧
    doc.location = pyOrNone (if profileLocTier raw = .null
      then scanLocTier raw else profileLocTier raw) ∧
    doc.industry = pyOrNone (if profileTier raw "industryName" = .null
      then scanTier raw "industryName" else profileTier raw "industryName") := by
  obtain ⟨-, h1, h2, h3, h4, -⟩ := parse_ok_doc raw doc h
  exact ⟨by rw [h1, headlineVal_tiers], by rw [h2, occupationVal_tiers],
    by rw [h3, locationVal_tiers], by rw [h4, industryVal_tiers]⟩

/-- Witness for C3 (amended) at the counterexample response: the
occupation resolves through the mini tier. -/
theorem c3_scalar_two_tier_witness :
    (ProfileDoc.mk "" (.str "HL") (.str "M") .null .null [] [] []).occupation =
      pyOrNone (if miniTier (.obj [("included", .arr [
          .obj [("$type", .str "com.linkedin.voyager.identity.profile.Profile"),
            ("occupation", .str "P"), ("headline", .str "HL")],
          .obj [("$type", .str "com.linkedin.voyager.identity.shared.MiniProfile"),
            ("occupation", .str "M")]])]) "occupation" = .null
        then scanTier (.obj [("included", .arr [
          .obj [("$type", .str "com.linkedin.voyager.identity.profile.Profile"),
            ("occupation", .str "P"), ("headline", .str "HL")],
          .obj [("$type", .str "com.linkedin.voyager.identity.shared.MiniProfile"),
            ("occupation", .str "M")]])]) "occupation"
        else miniTier (.obj [("included", .arr [
          .obj [("$type", .str "com.linkedin.voyager.identity.profile.Profile"),
            ("occupation", .str "P"), ("headline", .str "HL")],
          .obj [("$type", .str "com.linkedin.voyager.identity.shared.MiniProfile"),
            ("occupation", .str "M")]])]) "occupation") :=
  (c3_scalar_two_tier (.obj [("included", .arr [
      .obj [("$type", .str "com.linkedin.voyager.identity.profile.Profile"),
        ("occupation", .str "P"), ("headline", .str "HL")],
      .obj [("$type", .str "com.linkedin.voyager.identity.shared.MiniProfile"),
        ("occupation", .str "M")]])])
    (ProfileDoc.mk "" (.str "HL") (.str "M") .null .null [] [] []) rfl).2.1

/-- A falsy resolved fragment yields no field values. -/
theorem getField_of_falsy (o : Option JSON) (k : String) (h : pyFalsyOpt o = true) :
    getFieldFromOptObj o k = .null := by
  cases o with
  | none => rfl
  | some v =>
    cases v with
    | obj fs =>
      cases fs with
      | nil => rfl
      | cons a l => simp [pyFalsyOpt, JSON.truthy] at h
    | null => rfl
    | bool b =>
      cases b with
      | false => rfl
      | true => simp [pyFalsyOpt, JSON.truthy] at h
    | num n => rfl
    | str s => rfl
    | arr xs => rfl

/-- Counterexample for C4: a response whose profile tiers (urn lookup and
typed scan) miss while a mini-profile fragment is found by its type tag,
and which contains a fragment with string `firstName`/`lastName` fields —
the claimed unconditional shape-based third tier would make that fragment
the profile (full name `"John Doe"`), but the code gates the shape scan
on *both* profile and mini missing, so the projected full name is empty. -/
theorem c4_shape_tier_counterexample :
    (parse_voyager_profile (.obj [("included", .arr [
        .obj [("$type", .str "x"), ("firstName", .str "John"), ("lastName", .str "Doe")],
        .obj [("$type", .str "com.linkedin.voyager.identity.shared.MiniProfile"),
          ("headline", .str "mh")]])])).map (·.fullName) = .ok "" ∧
    (includedOf (.obj [("included", .arr [
        .obj [("$type", .str "x"), ("firstName", .str "John"), ("lastName", .str "Doe")],
        .obj [("$type", .str "com.linkedin.voyager.identity.shared.MiniProfile"),
          ("headline", .str "mh")]])])).find? (fun i =>
      match i with
      | .obj fs =>
        isStrVal ((dget fs "firstName").getD .null) && isStrVal ((dget fs "lastName").getD .null)
      | _ => false) =
      some (.obj [("$type", .str "x"), ("firstName", .str "John"), ("lastName", .str "Doe")]) ∧
    profileVal (.obj [("included", .arr [
        .obj [("$type", .str "x"), ("firstName", .str "John"), ("lastName", .str "Doe")],
        .obj [("$type", .str "com.linkedin.voyager.identity.shared.MiniProfile"),
          ("headline", .str "mh")]])]) = none ∧
    (miniVal (.obj [("included", .arr [
        .obj [("$type", .str "x"), ("firstName", .str "John"), ("lastName", .str "Doe")],
        .obj [("$type", .str "com.linkedin.voyager.identity.shared.MiniProfile"),
          ("headline", .str "mh")]])])).isSome = true ∧
    "" ≠ "John Doe" := by
  refine ⟨by decide, by decide, by decide, by decide, by decide⟩

/-- C4 (amended): the primary profile fragment itself is resolved by the
two-step chain urn-lookup → typed scan only; the shape-based
`firstName`/`lastName` scan is a name-only fallback that is *skipped*
whenever a mini-profile fragment was found — under a falsy profile and a
truthy mini, `any_with_name` stays unset and the full name comes from the
mini-profile fragment alone. -/
theorem c4_shape_tier_gated (raw : JSON) (doc : ProfileDoc) (m : JSON)
    (hp : pyFalsyOpt (profileVal raw) = true)
    (hm : miniVal raw = some m) (hmt : m.truthy = true)
    (h : parse_voyager_profile raw = .ok doc) :
    anyWithNameVal raw = none ∧
    doc.fullName = pyStrip ((if (getFieldFromOptObj (some m) "firstName").truthy
        then pyStr (getFieldFromOptObj (some m) "firstName") else "") ++ " " ++
      (if (getFieldFromOptObj (some m) "lastName").truthy
        then pyStr (getFieldFromOptObj (some m) "lastName") else "")) := by
  have hmf : pyFalsyOpt (miniVal raw) = false := by
    rw [hm]; simp [pyFalsyOpt, hmt]
  have hanon : anyWithNameVal raw = none := by
    unfold anyWithNameVal
    rw [hp, hmf]
    rfl
  have hfirst : firstNameVal raw = getFieldFromOptObj (some m) "firstName" := by
    unfold firstNameVal
    rw [getField_of_falsy _ _ hp, hm, hanon]
    simp only [JSON.truthy, Bool.false_eq_true, if_false]
    split <;> rfl
  have hlast : lastNameVal raw = getFieldFromOptObj (some m) "lastName" := by
    unfold lastNameVal
    rw [getField_of_falsy _ _ hp, hm, hanon]
    simp only [JSON.truthy, Bool.false_eq_true, if_false]
    split <;> rfl
  obtain ⟨hfn, -, -, -, -, -⟩ := parse_ok_doc raw doc h
  refine ⟨hanon, ?_⟩
  rw [hfn]
  unfold fullNameVal
  rw [hfirst, hlast]

/-- Witness for C4 (amended): a response with only a mini-profile
fragment carrying the names — the full name comes from it, the shape scan
stays unset. -/
theorem c4_shape_tier_gated_witness :
    anyWithNameVal (.obj [("included", .arr [
        .obj [("$type", .str "com.linkedin.voyager.identity.shared.MiniProfile"),
          ("firstName", .str "Mimi"), ("lastName", .str "Lee")]])]) = none ∧
    (ProfileDoc.mk "Mimi Lee" .null .null .null .null [] [] []).fullName =
      pyStrip ((if (getFieldFromOptObj (some (.obj
          [("$type", .str "com.linkedin.voyager.identity.shared.MiniProfile"),
           ("firstName", .str "Mimi"), ("lastName", .str "Lee")])) "firstName").truthy
        then pyStr (getFieldFromOptObj (some (.obj
          [("$type", .str "com.linkedin.voyager.identity.shared.MiniProfile"),
           ("firstName", .str "Mimi"), ("lastName", .str "Lee")])) "firstName") else "") ++ " " ++
        (if (getFieldFromOptObj (some (.obj
          [("$type", .str "com.linkedin.voyager.identity.shared.MiniProfile"),
           ("firstName", .str "Mimi"), ("lastName", .str "Lee")])) "lastName").truthy
        then pyStr (getFieldFromOptObj (some (.obj
          [("$type", .str "com.linkedin.voyager.identity.shared.MiniProfile"),
           ("firstName", .str "Mimi"), ("lastName", .str "Lee")])) "lastName") else "")) :=
  c4_shape_tier_gated (.obj [("included", .arr [
      .obj [("$type", .str "com.linkedin.voyager.identity.shared.MiniProfile"),
        ("firstName", .str "Mimi"), ("lastName", .str "Lee")]])])
    (ProfileDoc.mk "Mimi Lee" .null .null .null .null [] [] [])
    (.obj [("$type", .str "com.linkedin.voyager.identity.shared.MiniProfile"),
      ("firstName", .str "Mimi"), ("lastName", .str "Lee")])
    rfl rfl rfl rfl

/-- The distinct elements of a list in order of first occurrence (the key
order of an insertion-ordered Python dict). -/
def firstOccur : List String → List String
  | [] => []
  | t :: rest => t :: firstOccur (rest.filter (fun u => u != t))
termination_by l => l.length
decreasing_by
  simp only [List.length_cons]
  exact Nat.lt_succ_of_le (List.length_filter_le _ _)

/-- Membership in `firstOccur` is membership in the list. -/
theorem mem_firstOccur (a : String) (xs : List String) : a ∈ firstOccur xs ↔ a ∈ xs := by
  induction xs using firstOccur.induct with
  | case1 => simp [firstOccur]
  | case2 t rest ih =>
    rw [firstOccur]
    simp only [List.mem_cons, ih, List.mem_filter, bne_iff_ne]
    constructor
    · rintro (h | ⟨h, -⟩)
      · exact Or.inl h
      · exact Or.inr h
    · rintro (h | h)
      · exact Or.inl h
      · by_cases hat : a = t
        · exact Or.inl hat
        · exact Or.inr ⟨h, hat⟩

/-- `firstOccur` has no duplicates. -/
theorem nodup_firstOccur (xs : List String) : (firstOccur xs).Nodup := by
  induction xs using firstOccur.induct with
  | case1 => simp [firstOccur]
  | case2 t rest ih =>
    rw [firstOccur]
    refine List.Nodup.cons ?_ ih
    intro hmem
    have := (mem_firstOccur t _).mp hmem
    simp [List.mem_filter] at this

/-- Appending one element extends `firstOccur` iff the element is new. -/
theorem firstOccur_append_singleton (xs : List String) (a : String) :
    firstOccur (xs ++ [a]) =
      (if a ∈ xs then firstOccur xs else firstOccur xs ++ [a]) := by
  induction xs using firstOccur.induct with
  | case1 => simp [firstOccur]
  | case2 t rest ih =>
    rw [List.cons_append, firstOccur, List.filter_append]
    by_cases hat : a = t
    · subst hat
      simp only [List.filter_cons, bne_self_eq_false, List.filter_nil, Bool.false_eq_true,
        if_false]
      rw [List.append_nil, firstOccur]
      simp [List.mem_cons]
    · have hfa : ([a].filter fun u => u != t) = [a] := by
        simp [List.filter_cons, bne_iff_ne, hat]
      rw [hfa, ih]
      have hmem : a ∈ rest.filter (fun u => u != t) ↔ a ∈ rest := by
        simp [List.mem_filter, bne_iff_ne, hat]
      rw [firstOccur]
      by_cases hr : a ∈ rest
      · rw [if_pos (hmem.mpr hr), if_pos (by simp [List.mem_cons, hr])]
    
      · rw [if_neg (fun hc => hr (hmem.mp hc)),
          if_neg (by simp [List.mem_cons, hr, hat])]
        rfl

/-- `byTypeInsert` on a duplicate-free keyed map: append to the matching
group, or create a new group at the end. -/
theorem byTypeInsert_map (us : List String) (g : String → List JSON) (t : String) (x : JSON)
    (hnd : us.Nodup) :
    byTypeInsert (us.map fun u => (u, g u)) t x =
      (if t ∈ us
       then us.map (fun u => (u, if u = t then g u ++ [x] else g u))
       else (us.map fun u => (u, g u)) ++ [(t, [x])]) := by
  induction us with
  | nil =>
    rw [List.map_nil, if_neg (List.not_mem_nil t), List.nil_append]
    rfl
  | cons u us' ih =>
    obtain ⟨hu, hnd'⟩ := List.nodup_cons.mp hnd
    simp only [List.map_cons, byTypeInsert]
    by_cases hut : u = t
    · subst hut
      rw [if_pos rfl, if_pos (List.mem_cons_self u us')]
      simp only [List.map_cons, if_pos rfl]
      congr 1
      refine List.map_congr_left ?_
      intro v hv
      rw [if_neg]
      intro hvu
      exact hu (hvu ▸ hv)
    · rw [if_neg hut, ih hnd']
      by_cases hts : t ∈ us'
      · rw [if_pos hts, if_pos (List.mem_cons_of_mem u hts)]
        simp [hut]
      · rw [if_neg hts, if_neg (by
          intro hc
          rcases List.mem_cons.mp hc with hc | hc
          · exact hut hc.symm
          · exact hts hc)]
        simp only [List.map_cons, List.cons_append]

/-- The `by_type` index is canonical: its keys are the type tags in order
of first appearance, and each group is the sublist of `included` carrying
that tag, in array order. -/
theorem byType_eq (l : List JSON) :
    byType l = (firstOccur (l.map typeTag)).map
      (fun t => (t, l.filter (fun i => typeTag i = t))) := by
  induction l using List.reverseRecOn with
  | nil => simp [byType, firstOccur]
  | append_singleton l x ih =>
    have hstep : byType (l ++ [x]) = byTypeInsert (byType l) (typeTag x) x := by
      unfold byType
      rw [List.foldl_append]
      rfl
    rw [hstep, ih, byTypeInsert_map _ _ _ _ (nodup_firstOccur _)]
    rw [List.map_append, List.map_singleton, firstOccur_append_singleton]
    by_cases hmem : typeTag x ∈ l.map typeTag
    · rw [if_pos ((mem_firstOccur _ _).mpr hmem), if_pos hmem]
      refine List.map_congr_left ?_
      intro u hu
      rw [List.filter_append]
      by_cases hut : u = typeTag x
      · subst hut
        rw [if_pos rfl]
        simp [List.filter_cons]
      · rw [if_neg hut]
        have : ([x].filter fun i => typeTag i = u) = [] := by
          simp [List.filter_cons]
          intro hc
          exact hut hc.symm
        rw [this, List.append_nil]
    · rw [if_neg (fun hc => hmem ((mem_firstOccur _ _).mp hc)), if_neg hmem]
      rw [List.map_append, List.map_singleton]
      congr 1
      · refine List.map_congr_left ?_
        intro u hu
        have hune : u ≠ typeTag x := by
          intro hc
          exact hmem (hc ▸ (mem_firstOccur _ _).mp hu)
        rw [List.filter_append]
        have : ([x].filter fun i => typeTag i = u) = [] := by
          simp [List.filter_cons]
          intro hc
          exact hune hc.symm
        rw [this, List.append_nil]
      · have hnil : (l.filter fun i => typeTag i = typeTag x) = [] := by
          rw [List.filter_eq_nil_iff]
          intro a ha hc
          exact hmem (by
            rw [← (by simpa using hc : typeTag a = typeTag x)]
            exact List.mem_map_of_mem typeTag ha)
        rw [List.filter_append, hnil]
        simp [List.filter_cons]

/-- Claim-side: the fragments matching a type predicate, grouped by type
tag — distinct tags in order of first appearance in `included`, the
fragments of each tag in array order. -/
def groupedByTag (l : List JSON) (pred : String → Bool) : List JSON :=
  (firstOccur (l.map typeTag)).flatMap fun t =>
    if pred t then l.filter (fun i => typeTag i = t) else []

/-- The projector's `by_type` flattening equals the grouped-by-tag
selection. -/
theorem byTypeSelect_eq_grouped (l : List JSON) (pred : String → Bool) :
    byTypeSelect l pred = groupedByTag l pred := by
  unfold byTypeSelect groupedByTag
  rw [byType_eq]
  induction firstOccur (l.map typeTag) with
  | nil => rfl
  | cons t ts ih =>
    simp only [List.map_cons, List.flatMap_cons, ih]

/-- Counterexample for C5: three position fragments with tags
`PositionA`, `PositionB`, `PositionA` (array order T1, T2, T3) project to
experience entries in order T1, T3, T2 — grouped by tag, not in
`included` array order as claimed when the matching fragments carry
different `$type` strings. -/
theorem c5_order_counterexample :
    (parse_voyager_profile (.obj [("included", .arr [
        .obj [("$type", .str "PositionA"), ("title", .str "T1")],
        .obj [("$type", .str "PositionB"), ("title", .str "T2")],
        .obj [("$type", .str "PositionA"), ("title", .str "T3")]])])).map
      (fun d => d.experience.map (fun e =>
        match e with
        | .obj fs => (dget fs "title").getD .null
        | _ => .null)) = .ok [.str "T1", .str "T3", .str "T2"] ∧
    [JSON.str "T1", .str "T3", .str "T2"] ≠ [JSON.str "T1", .str "T2", .str "T3"] := by
  refine ⟨by decide, by decide⟩

/-- C5 (amended): positions, educations and skills are collected from
*every* fragment whose type tag matches, but in grouped order: distinct
type tags in order of first appearance in `included`, and the fragments
of each tag in array order — which coincides with plain array order only
when all matching fragments share a single tag. -/
theorem c5_collections_grouped (raw : JSON) :
    positionsOf raw = groupedByTag (includedOf raw)
      (fun t => is_type t "position" || is_type t "positiongroup") ∧
    educationsOf raw = groupedByTag (includedOf raw) (is_type · "education") ∧
    skillsFragsOf raw = groupedByTag (includedOf raw) (is_type · "skill") :=
  ⟨byTypeSelect_eq_grouped _ _, byTypeSelect_eq_grouped _ _, byTypeSelect_eq_grouped _ _⟩
